import Mathlib

/-!
Shallow embedding of `src/AirMonitor.py` (class `AirMonitor`) and proofs about it.

Modelling conventions:
* Python floats are modelled as exact rationals, represented as unnormalized
  fractions `PyFloat` (integer numerator, natural denominator) so that all
  arithmetic is kernel-computable Int/Nat arithmetic.
* `'{0:.3g}'.format(x)` (CPython `%g` with precision 3) is embedded digit by
  digit: round the value to 3 significant decimal digits (round half to even),
  then render in fixed notation when the decimal exponent `e` satisfies
  `-4 <= e < 3` and in scientific notation (two-digit signed exponent,
  mantissa trailing zeros stripped) otherwise.
* The Adafruit IO client, the DHT11 driver and the wall clock are external
  collaborators; they enter the model as explicit parameters (a record of
  oracle functions for the client, a result record for the driver, numeric
  timestamps for `datetime.datetime.now()`), and the observable calls made to
  the client are collected in an event trace.
-/

namespace AirMonitor

/-- A Python float value, modelled as the exact rational `num / den`
(`den` is expected to be nonzero; all fractions built in this file have
positive denominators). Fractions are deliberately kept unnormalized so that
every operation is plain integer arithmetic. -/
structure PyFloat where
  num : Int
  den : Nat
deriving DecidableEq

/-- Addition of modelled float values (exact rational addition). -/
def PyFloat.add (a b : PyFloat) : PyFloat :=
  ⟨a.num * (b.den : Int) + b.num * (a.den : Int), a.den * b.den⟩

/-- Multiplication of modelled float values (exact rational multiplication). -/
def PyFloat.mul (a b : PyFloat) : PyFloat :=
  ⟨a.num * b.num, a.den * b.den⟩

/-- Number of decimal digits of `n` (1 for `n = 0`), with explicit fuel;
the fuel `n + 1` always suffices since the argument shrinks by a factor 10
each step. -/
def digitLenAux : Nat → Nat → Nat
  | 0, _ => 0
  | fuel + 1, n => if n < 10 then 1 else digitLenAux fuel (n / 10) + 1

/-- Number of decimal digits of `n` (1 for `n = 0`). -/
def digitLen (n : Nat) : Nat := digitLenAux (n + 1) n

/-- Decimal digits of `n`, most significant first, as characters. -/
def natToCharsAux : Nat → Nat → List Char
  | 0, _ => []
  | fuel + 1, n =>
    if n < 10 then [Nat.digitChar n]
    else natToCharsAux fuel (n / 10) ++ [Nat.digitChar (n % 10)]

/-- Decimal digits of `n`, most significant first, as characters. -/
def natToChars (n : Nat) : List Char := natToCharsAux (n + 1) n

/-- Whether the positive rational `n / d` is at least `10 ^ c`
(comparison done by cross multiplication, so it is exact). -/
def gePow10 (n d : Nat) (c : Int) : Bool :=
  if 0 ≤ c then d * 10 ^ c.toNat ≤ n else d ≤ n * 10 ^ (-c).toNat

/-- Decimal exponent of the positive rational `n / d`: the unique `e` with
`10 ^ e ≤ n / d < 10 ^ (e + 1)`. The candidate from digit lengths is off by
at most one, which the comparison fixes. -/
def decExpN (n d : Nat) : Int :=
  let c : Int := (digitLen n : Int) - (digitLen d : Int)
  if gePow10 n d c then c else c - 1

/-- Scale `n / d` by `10 ^ s` and return it as a fraction of naturals. -/
def scaledND (n d : Nat) (s : Int) : Nat × Nat :=
  if 0 ≤ s then (n * 10 ^ s.toNat, d) else (n, d * 10 ^ (-s).toNat)

/-- Round the nonnegative rational `N / D` to the nearest natural,
ties to even (the rounding CPython float formatting performs on the decimal
expansion of the exact value). -/
def roundHalfEvenND (N D : Nat) : Nat :=
  let q := N / D
  let r := N % D
  if 2 * r < D then q
  else if D < 2 * r then q + 1
  else if q % 2 = 0 then q else q + 1

/-- Round the positive rational `n / d` to 3 significant decimal digits:
returns `(m, e)` with `100 ≤ m ≤ 999` such that the rounded value is
`m * 10 ^ (e - 2)`. -/
def sigRound3 (n d : Nat) : Nat × Int :=
  let e := decExpN n d
  let p := scaledND n d (2 - e)
  let m := roundHalfEvenND p.1 p.2
  if m = 1000 then (100, e + 1) else (m, e)

/-- The three decimal digits of `m` (assumed `100 ≤ m ≤ 999`) as characters. -/
def mantissaDigits (m : Nat) : List Char :=
  [Nat.digitChar (m / 100), Nat.digitChar (m / 10 % 10), Nat.digitChar (m % 10)]

/-- Drop trailing `'0'` characters (the effect of Python's `rstrip('0')`,
and also how `%g` strips insignificant zeros from a mantissa). -/
def stripTrailZeroChars (cs : List Char) : List Char :=
  (cs.reverse.dropWhile (fun ch => ch == '0')).reverse

/-- The exponent suffix of `%g` scientific notation: `e`, a sign, and the
absolute exponent padded to at least two digits. -/
def expSuffix (e : Int) : List Char :=
  let a := e.natAbs
  let ds := natToChars a
  let ds2 := if a < 10 then '0' :: ds else ds
  'e' :: (if e < 0 then '-' else '+') :: ds2

/-- `%.3g` rendering of the positive rational `n / d` as a character list. -/
def g3Pos (n d : Nat) : List Char :=
  let p := sigRound3 n d
  let m := p.1
  let e := p.2
  let sig := stripTrailZeroChars (mantissaDigits m)
  if -4 ≤ e ∧ e < 3 then
    if 0 ≤ e then
      let k := e.toNat + 1
      let padded := sig ++ List.replicate (k - sig.length) '0'
      let intPart := padded.take k
      let fracPart := padded.drop k
      if fracPart = [] then intPart else intPart ++ '.' :: fracPart
    else
      '0' :: '.' :: (List.replicate (e.natAbs - 1) '0' ++ sig)
  else
    match sig with
    | [] => []
    | d1 :: rest => d1 :: (if rest = [] then [] else '.' :: rest) ++ expSuffix e

/-- `'{0:.3g}'.format(x)` as a character list (sign handled here; zero prints
as `0`). -/
def formatG3 (x : PyFloat) : List Char :=
  if x.num = 0 then ['0']
  else if x.num < 0 then '-' :: g3Pos x.num.natAbs x.den
  else g3Pos x.num.natAbs x.den

/-- `AirMonitor._FormatResult` (src/AirMonitor.py lines 57-68):
`value = '{0:.3g}'.format(unformatted_value)`; then, if the string contains a
decimal point, `value = value.rstrip('0')`. -/
def _FormatResult (unformatted_value : PyFloat) : String :=
  let value := formatG3 unformatted_value
  if value.contains '.' then String.mk (stripTrailZeroChars value)
  else String.mk value

/-- `AirMonitor._ctof` (src/AirMonitor.py lines 70-78):
`(celsius_temperature * (9/5)) + 32`, modelled with the exact rational `9/5`. -/
def _ctof (celsius_temperature : PyFloat) : PyFloat :=
  (celsius_temperature.mul ⟨9, 5⟩).add ⟨32, 1⟩

/-- Log messages the monitor can emit (rendering of the format strings is
abstracted into constructors carrying the interpolated data). -/
inductive LogMsg
  | dhtError (error_code : Int)
  | shuttingDown
deriving DecidableEq

/-- The record the DHT11 driver's `read()` returns, as used by the code:
`is_valid()`, `temperature`, `humidity`, `error_code`
(src/AirMonitor.py lines 112-125). -/
structure DHT11Result where
  is_valid : Bool
  temperature : PyFloat
  humidity : PyFloat
  error_code : Int

/-- The mutable reading fields of the `AirMonitor` instance:
`temperature_celsius`, `temperature_fahrenheit`, `humidity`
(src/AirMonitor.py lines 23-25). -/
structure MonitorState where
  temperature_celsius : Option String
  temperature_fahrenheit : Option String
  humidity : Option String
deriving DecidableEq

/-- The state `__init__` establishes (src/AirMonitor.py lines 23-25):
all three reading fields are `None`. -/
def initState : MonitorState := ⟨none, none, none⟩

/-- `AirMonitor.DHT11Read` (src/AirMonitor.py lines 109-126), with the driver
result and the two calibration offsets (config keys
`DHT11.TEMPERATURE_CALIBRATION` and `DHT11.HUMIDITY_CALIBRATION`) passed
explicitly. Returns the updated reading state and the log messages emitted. -/
def DHT11Read (temperature_calibration humidity_calibration : PyFloat)
    (result : DHT11Result) (s : MonitorState) : MonitorState × List LogMsg :=
  if result.is_valid then
    let corrected_temperature := result.temperature.add temperature_calibration
    let corrected_humidity := result.humidity.add humidity_calibration
    ({ temperature_celsius := some (_FormatResult corrected_temperature),
       temperature_fahrenheit := some (_FormatResult (_ctof corrected_temperature)),
       humidity := some (_FormatResult corrected_humidity) }, [])
  else
    (s, [LogMsg.dhtError result.error_code])

/-- `AirMonitor.GetValueDict` (src/AirMonitor.py lines 133-142): the value
dict, as an association list in the dict's insertion order:
`fahrenheit`, `celsius`, `humidity`. -/
def GetValueDict (s : MonitorState) : List (String × Option String) :=
  [("fahrenheit", s.temperature_fahrenheit),
   ("celsius", s.temperature_celsius),
   ("humidity", s.humidity)]

/-- Python truthiness of `values[key]` at src/AirMonitor.py line 93: `None`
is falsy, a string is truthy unless empty. -/
def truthyStr : Option String → Bool
  | none => false
  | some str => !(str == "")

/-- An Adafruit IO feed handle; the code only uses its `key`. -/
structure Feed where
  key : String
deriving DecidableEq

/-- Exceptions the Adafruit IO client can raise: `RequestError` (the class
the code catches at line 96) or any other exception. -/
inductive PyExc
  | requestError
  | other (msg : String)
deriving DecidableEq

/-- Oracle model of the Adafruit IO `Client`: each call either returns a
value or raises an exception. -/
structure AioClient where
  feeds : String → Except PyExc Feed
  create_feed : String → Except PyExc Feed
  send_data : String → String → Except PyExc Unit

/-- Observable calls made to the Adafruit IO client. -/
inductive Event
  | lookup (name : String)
  | create (name : String)
  | send (feedKey : String) (value : String)
deriving DecidableEq

/-- Whether an event is a `send_data` call. -/
def Event.isSend : Event → Bool
  | Event.send _ _ => true
  | _ => false

/-- The body of the `for key in values` loop for one channel
(src/AirMonitor.py lines 94-100): `try: feed = aio.feeds(key)
except RequestError: feed = aio.create_feed(Feed(name=key))`, then
`aio.send_data(feed.key, values[key])`. Only `RequestError` from the lookup
is caught; any exception from `create_feed` or `send_data` (and any
non-`RequestError` exception from the lookup) escapes. Returns the trace of
client calls that completed and the escaping exception, if any. -/
def uploadChannel (client : AioClient) (key value : String) :
    List Event × Option PyExc :=
  match client.feeds key with
  | Except.ok feed =>
    match client.send_data feed.key value with
    | Except.ok _ => ([Event.lookup key, Event.send feed.key value], none)
    | Except.error e => ([Event.lookup key], some e)
  | Except.error PyExc.requestError =>
    match client.create_feed key with
    | Except.ok feed =>
      match client.send_data feed.key value with
      | Except.ok _ =>
        ([Event.lookup key, Event.create key, Event.send feed.key value], none)
      | Except.error e => ([Event.lookup key, Event.create key], some e)
    | Except.error e => ([Event.lookup key], some e)
  | Except.error e => ([], some e)

/-- The `for key in values` loop (src/AirMonitor.py lines 92-100): channels
with falsy values are skipped; an exception escaping one channel's body
aborts the loop (Python propagates it out of the `for`). -/
def uploadChannels (client : AioClient) :
    List (String × Option String) → List Event × Option PyExc
  | [] => ([], none)
  | (key, v) :: rest =>
    if truthyStr v then
      match uploadChannel client key (v.getD "") with
      | (evs, none) =>
        let r := uploadChannels client rest
        (evs ++ r.1, r.2)
      | (evs, some e) => (evs, some e)
    else uploadChannels client rest

/-- The throttle condition at src/AirMonitor.py lines 85-88:
`not self.adafruit_last_upload or now >= last + timedelta(minutes=interval)`.
Timestamps and the interval are in minutes. -/
def mayUpload (adafruit_last_upload : Option Nat) (intervalMinutes now : Nat) :
    Bool :=
  match adafruit_last_upload with
  | none => true
  | some t => decide (now ≥ t + intervalMinutes)

/-- Result of one `AdafruitUpload` call: the client calls made, the escaping
exception (if any), and the new `adafruit_last_upload`. -/
structure UploadResult where
  events : List Event
  exc : Option PyExc
  adafruit_last_upload : Option Nat
deriving DecidableEq

/-- `AirMonitor.AdafruitUpload` (src/AirMonitor.py lines 80-101). `enabled`
is `config['ADAFRUIT_IO']['ENABLED'].upper() == 'Y'`; `now` is the
`datetime.datetime.now()` of the throttle check (line 86) and `now2` the one
of the assignment at line 101. The assignment
`self.adafruit_last_upload = datetime.datetime.now()` sits after the loop,
so it runs only when the loop finishes without an escaping exception. -/
def AdafruitUpload (enabled : Bool) (adafruit_last_upload : Option Nat)
    (intervalMinutes now now2 : Nat) (values : List (String × Option String))
    (client : AioClient) : UploadResult :=
  if enabled then
    if mayUpload adafruit_last_upload intervalMinutes now then
      match uploadChannels client values with
      | (evs, none) => ⟨evs, none, some now2⟩
      | (evs, some e) => ⟨evs, some e, adafruit_last_upload⟩
    else ⟨[], none, adafruit_last_upload⟩
  else ⟨[], none, adafruit_last_upload⟩

/-- How `AirMonitor.Run` can exit (src/AirMonitor.py lines 43-55): the
`while True` loop never returns normally, so it exits either with an
`Exception` escaping the body or with a `BaseException` that is not an
`Exception` (e.g. `KeyboardInterrupt`). -/
inductive RunExit
  | exception (msg : String)
  | interrupt
deriving DecidableEq

/-- Observable actions of the `__main__` block. -/
inductive MainEvent
  | runLoop
  | cleanup
deriving DecidableEq

/-- The `except Exception: raise` clause (src/AirMonitor.py lines 185-186):
an `Exception` is caught and immediately re-raised, a `KeyboardInterrupt`
is not caught; either way the outcome is unchanged. -/
def exceptReraise (body : List MainEvent × RunExit) : List MainEvent × RunExit :=
  match body.2 with
  | RunExit.exception msg => (body.1, RunExit.exception msg)
  | RunExit.interrupt => body

/-- A `finally` clause (src/AirMonitor.py lines 187-188): the cleanup
actions run after the body, before the body's outcome propagates. -/
def finallyRun (body : List MainEvent × RunExit) (fin : List MainEvent) :
    List MainEvent × RunExit :=
  (body.1 ++ fin, body.2)

/-- The `__main__` block (src/AirMonitor.py lines 179-188):
`try: monitor.Run() except Exception: raise finally: monitor.Cleanup()`,
where `runTrace` is what `Run` did before exiting with `exit`. -/
def mainBlock (runTrace : List MainEvent) (exit : RunExit) :
    List MainEvent × RunExit :=
  finallyRun (exceptReraise (runTrace, exit)) [MainEvent.cleanup]

/-- Reading state after the spec's sample valid reading: raw
`(temperature=22.0, humidity=50.0)` with offsets `(+0.5, -1.0)`. -/
def sampleState : MonitorState := ⟨some "22.5", some "72.5", some "49"⟩

/-- A client on which every call succeeds; lookups and creations return a
feed whose key equals the requested name. -/
def okClient : AioClient :=
  { feeds := fun name => Except.ok ⟨name⟩,
    create_feed := fun name => Except.ok ⟨name⟩,
    send_data := fun _ _ => Except.ok () }

/-- A client on which lookups and creations succeed but sending to the
`celsius` feed raises. -/
def celsiusSendFailClient : AioClient :=
  { feeds := fun name => Except.ok ⟨name⟩,
    create_feed := fun name => Except.ok ⟨name⟩,
    send_data := fun feedKey _ =>
      if feedKey = "celsius" then Except.error (PyExc.other "send failed")
      else Except.ok () }

/-- A client on which every lookup raises `RequestError` (feed not found)
and creation and sending succeed. -/
def notFoundClient : AioClient :=
  { feeds := fun _ => Except.error PyExc.requestError,
    create_feed := fun name => Except.ok ⟨name⟩,
    send_data := fun _ _ => Except.ok () }

/-- The monitor state evolution the claims about the reading fields range
over: starting from `__init__`, a sequence of `DHT11Read` calls (the only
code that assigns the three reading fields). -/
def runReads (temperature_calibration humidity_calibration : PyFloat)
    (results : List DHT11Result) : MonitorState :=
  results.foldl
    (fun s r => (DHT11Read temperature_calibration humidity_calibration r s).1)
    initState

/-- The atomicity invariant of the reading fields: all three present or all
three absent. -/
def atomicReading (s : MonitorState) : Prop :=
  (s.temperature_celsius.isSome = true ∧ s.temperature_fahrenheit.isSome = true
    ∧ s.humidity.isSome = true)
  ∨ (s.temperature_celsius = none ∧ s.temperature_fahrenheit = none
    ∧ s.humidity = none)

/-- Sanity checks of the formatter embedding against CPython `%.3g` output. -/
theorem formatG3_reference_checks :
    _FormatResult ⟨45, 2⟩ = "22.5"
    ∧ _FormatResult ⟨1234, 10000⟩ = "0.123"
    ∧ _FormatResult ⟨9996, 10⟩ = "1e+03"
    ∧ _FormatResult ⟨-21456, 1000⟩ = "-21.5"
    ∧ _FormatResult ⟨1, 1000000⟩ = "1e-06" := by decide

/-- Claim C1, counterexample: with all three readings present and a client
whose `send_data` to the `celsius` feed raises, the publish pass stops at the
`celsius` send — the remaining channel `humidity` is never looked up, created
or sent to, refuting that a send failure is isolated from the remaining
channels. -/
theorem send_failure_aborts_remaining_channels :
    uploadChannels celsiusSendFailClient (GetValueDict sampleState) =
      ([Event.lookup "fahrenheit", Event.send "fahrenheit" "72.5",
        Event.lookup "celsius"], some (PyExc.other "send failed"))
    ∧ (uploadChannels celsiusSendFailClient (GetValueDict sampleState)).1.contains
        (Event.lookup "humidity") = false
    ∧ (uploadChannels celsiusSendFailClient (GetValueDict sampleState)).1.contains
        (Event.send "humidity" "49") = false := by decide

/-- Claim C1, amended: only a `RequestError` from the channel lookup is
handled (by creating the channel); an exception from creating a channel or
sending a value escapes the `for` loop, so the remaining channels of the pass
are not processed — the pass's result is exactly the failing channel's
partial trace and its exception, independent of the remaining channels. -/
theorem channel_failure_aborts_pass (client : AioClient) (key : String)
    (v : Option String) (rest : List (String × Option String))
    (evs : List Event) (e : PyExc)
    (htruthy : truthyStr v = true)
    (hfail : uploadChannel client key (v.getD "") = (evs, some e)) :
    uploadChannels client ((key, v) :: rest) = (evs, some e) := by
  simp [uploadChannels, htruthy, hfail]

/-- Witness for `channel_failure_aborts_pass`: a send failure on `celsius`
aborts the pass before `humidity` is processed. -/
theorem channel_failure_aborts_pass_witness :
    truthyStr (some "22.5") = true
    ∧ uploadChannel celsiusSendFailClient "celsius" ((some "22.5").getD "") =
        ([Event.lookup "celsius"], some (PyExc.other "send failed"))
    ∧ uploadChannels celsiusSendFailClient
        [("celsius", some "22.5"), ("humidity", some "49")] =
        ([Event.lookup "celsius"], some (PyExc.other "send failed")) :=
  ⟨by decide, by decide,
    channel_failure_aborts_pass celsiusSendFailClient "celsius" (some "22.5")
      [("humidity", some "49")] [Event.lookup "celsius"]
      (PyExc.other "send failed") (by decide) (by decide)⟩

/-- Claim C2, counterexample: a permitted, attempted upload cycle in which
the `celsius` push raises ends with `adafruit_last_upload` still unset — the
assignment at line 101 is skipped, refuting that the timestamp is set
regardless of per-channel failures. -/
theorem push_failure_leaves_timestamp_unset :
    mayUpload none 5 0 = true
    ∧ (AdafruitUpload true none 5 0 0 (GetValueDict sampleState)
        celsiusSendFailClient).exc = some (PyExc.other "send failed")
    ∧ (AdafruitUpload true none 5 0 0 (GetValueDict sampleState)
        celsiusSendFailClient).adafruit_last_upload = none := by decide

/-- Claim C2, amended: in a permitted upload cycle, `adafruit_last_upload`
is set (once, to the time of line 101) exactly when the channel loop
completes without an escaping exception; if a channel push raises, the cycle
aborts with the timestamp unchanged. -/
theorem timestamp_set_iff_pass_completes (last : Option Nat)
    (i now now2 : Nat) (values : List (String × Option String))
    (client : AioClient) (hperm : mayUpload last i now = true) :
    ((uploadChannels client values).2 = none →
      AdafruitUpload true last i now now2 values client =
        ⟨(uploadChannels client values).1, none, some now2⟩)
    ∧ ∀ e, (uploadChannels client values).2 = some e →
      AdafruitUpload true last i now now2 values client =
        ⟨(uploadChannels client values).1, some e, last⟩ := by
  rcases hu : uploadChannels client values with ⟨evs, oe⟩
  constructor
  · intro h2
    simp only [] at h2
    subst h2
    simp [AdafruitUpload, hperm, hu]
  · intro e h2
    simp only [] at h2
    subst h2
    simp [AdafruitUpload, hperm, hu]

/-- Witness for `timestamp_set_iff_pass_completes`: on a fully successful
pass the timestamp is set to the recording time. -/
theorem timestamp_set_iff_pass_completes_witness :
    mayUpload none 5 0 = true
    ∧ (uploadChannels okClient (GetValueDict sampleState)).2 = none
    ∧ AdafruitUpload true none 5 0 7 (GetValueDict sampleState) okClient =
        ⟨(uploadChannels okClient (GetValueDict sampleState)).1, none,
          some 7⟩ :=
  ⟨by decide, by decide,
    (timestamp_set_iff_pass_completes none 5 0 7 (GetValueDict sampleState)
      okClient (by decide)).1 (by decide)⟩

/-- Claim C3: the spec's example values hold (`format(21.0) = "21"`,
`format(21.456) = "21.5"`, `format(0.0) = "0"`), but the trailing
`rstrip('0')` also strips zero digits from a scientific-notation exponent:
`'{0:.3g}'.format(1.5e10)` is `"1.5e+10"` and the code turns it into
`"1.5e+1"`, changing the denoted magnitude — the code, not the claim, is
wrong at that input. -/
theorem formatter_examples_and_exponent_corruption :
    _FormatResult ⟨21, 1⟩ = "21"
    ∧ _FormatResult ⟨21456, 1000⟩ = "21.5"
    ∧ _FormatResult ⟨0, 1⟩ = "0"
    ∧ formatG3 ⟨15000000000, 1⟩ = "1.5e+10".data
    ∧ _FormatResult ⟨15000000000, 1⟩ = "1.5e+1" := by decide

/-- Claim C4: a valid raw reading adds the temperature offset to the raw
temperature and the humidity offset to the raw humidity, converts the
calibrated (pre-formatting) Celsius value via `_ctof`, formats all three,
and stores them; at raw `(22.0, 50.0)` with offsets `(+0.5, -1.0)` the
stored values are `"22.5"`, `"72.5"`, `"49"`. -/
theorem valid_read_calibrates_converts_formats :
    (∀ (tc hc : PyFloat) (r : DHT11Result) (s : MonitorState),
      r.is_valid = true →
      DHT11Read tc hc r s =
        ({ temperature_celsius := some (_FormatResult (r.temperature.add tc)),
           temperature_fahrenheit :=
             some (_FormatResult (_ctof (r.temperature.add tc))),
           humidity := some (_FormatResult (r.humidity.add hc)) }, []))
    ∧ DHT11Read ⟨1, 2⟩ ⟨-1, 1⟩
        { is_valid := true, temperature := ⟨22, 1⟩, humidity := ⟨50, 1⟩,
          error_code := 0 } initState =
        (⟨some "22.5", some "72.5", some "49"⟩, []) := by
  constructor
  · intro tc hc r s h
    simp [DHT11Read, h]
  · decide

/-- Witness for `valid_read_calibrates_converts_formats`, applied at the
spec's sample reading from a non-empty previous state. -/
theorem valid_read_calibrates_converts_formats_witness :
    DHT11Read ⟨1, 2⟩ ⟨-1, 1⟩
      { is_valid := true, temperature := ⟨22, 1⟩, humidity := ⟨50, 1⟩,
        error_code := 0 } sampleState =
      (⟨some "22.5", some "72.5", some "49"⟩, []) := by
  rw [valid_read_calibrates_converts_formats.1 ⟨1, 2⟩ ⟨-1, 1⟩ _ _ rfl]
  decide

/-- Claim C5: the throttle permits an upload exactly when the last-upload
timestamp is unset or `now >= last + interval`, and with `interval = 5`
minutes and `last = T0`: not permitted at `T0+4`, permitted at `T0+5`; after
an attempt recorded at `T0+5` (via `AdafruitUpload`, which performs the
line-101 assignment), not permitted at `T0+6`. -/
theorem throttle_gate_characterization :
    (∀ (last : Option Nat) (i now : Nat),
      mayUpload last i now = true ↔
        (last = none ∨ ∃ t, last = some t ∧ t + i ≤ now))
    ∧ ∀ t0 : Nat,
      mayUpload (some t0) 5 (t0 + 4) = false
      ∧ mayUpload (some t0) 5 (t0 + 5) = true
      ∧ (∀ client : AioClient,
          (AdafruitUpload true (some t0) 5 (t0 + 5) (t0 + 5) []
            client).adafruit_last_upload = some (t0 + 5))
      ∧ mayUpload (some (t0 + 5)) 5 (t0 + 6) = false := by
  constructor
  · intro last i now
    cases last with
    | none => simp [mayUpload]
    | some t => simp [mayUpload]
  · intro t0
    refine ⟨?_, ?_, ?_, ?_⟩
    · simp [mayUpload]
    · simp [mayUpload]
    · intro client
      simp [AdafruitUpload, mayUpload, uploadChannels]
    · simp [mayUpload]

/-- Claim C6: when the driver reports the reading invalid, `DHT11Read` logs
the error code and leaves the state — in particular all three previously
held reading fields — unchanged. -/
theorem invalid_read_mutates_nothing (tc hc : PyFloat) (r : DHT11Result)
    (s : MonitorState) (h : r.is_valid = false) :
    DHT11Read tc hc r s = (s, [LogMsg.dhtError r.error_code]) := by
  simp [DHT11Read, h]

/-- Witness for `invalid_read_mutates_nothing` at a concrete invalid reading
over a previously populated state. -/
theorem invalid_read_mutates_nothing_witness :
    DHT11Read ⟨1, 2⟩ ⟨-1, 1⟩
      { is_valid := false, temperature := ⟨0, 1⟩, humidity := ⟨0, 1⟩,
        error_code := 2 } sampleState =
      (sampleState, [LogMsg.dhtError 2]) :=
  invalid_read_mutates_nothing ⟨1, 2⟩ ⟨-1, 1⟩ _ sampleState rfl

/-- One `DHT11Read` step preserves the reading-atomicity invariant: a valid
reading sets all three fields, an invalid one changes nothing. -/
theorem read_preserves_atomic (tc hc : PyFloat) (r : DHT11Result)
    (s : MonitorState) (h : atomicReading s) :
    atomicReading (DHT11Read tc hc r s).1 := by
  cases hv : r.is_valid with
  | true =>
    left
    simp [DHT11Read, hv]
  | false => simpa [DHT11Read, hv] using h

/-- Folding any sequence of reads preserves the atomicity invariant. -/
theorem runReads_atomic_aux (tc hc : PyFloat) :
    ∀ (results : List DHT11Result) (s : MonitorState), atomicReading s →
      atomicReading (results.foldl (fun s r => (DHT11Read tc hc r s).1) s)
  | [], _, h => h
  | r :: rs, s, h =>
    runReads_atomic_aux tc hc rs _ (read_preserves_atomic tc hc r s h)

/-- Claim C7: starting from `__init__` (all fields `None`), after any
sequence of sensor reads — the only operations that assign the reading
fields — `temperature_celsius`, `temperature_fahrenheit` and `humidity` are
all present or all absent; the reading is never partially populated. -/
theorem reading_fields_all_or_none (tc hc : PyFloat)
    (results : List DHT11Result) : atomicReading (runReads tc hc results) :=
  runReads_atomic_aux tc hc results initState (Or.inr ⟨rfl, rfl, rfl⟩)

/-- Claim C8: when the lookup of a channel raises the not-found
`RequestError` and creating it succeeds, the value is sent exactly once, to
the freshly created feed's key — the trace is lookup, create, one send, with
no retry or duplicate. -/
theorem notfound_creates_then_sends_once (client : AioClient)
    (key value : String) (f : Feed)
    (h1 : client.feeds key = Except.error PyExc.requestError)
    (h2 : client.create_feed key = Except.ok f)
    (h3 : client.send_data f.key value = Except.ok ()) :
    uploadChannel client key value =
      ([Event.lookup key, Event.create key, Event.send f.key value], none)
    ∧ (uploadChannel client key value).1.countP Event.isSend = 1 := by
  have he : uploadChannel client key value =
      ([Event.lookup key, Event.create key, Event.send f.key value], none) := by
    simp [uploadChannel, h1, h2, h3]
  refine ⟨he, ?_⟩
  rw [he]
  rfl

/-- Witness for `notfound_creates_then_sends_once`: the `humidity` channel
is created after a not-found lookup and its value sent exactly once. -/
theorem notfound_creates_then_sends_once_witness :
    uploadChannel notFoundClient "humidity" "49" =
      ([Event.lookup "humidity", Event.create "humidity",
        Event.send "humidity" "49"], none)
    ∧ (uploadChannel notFoundClient "humidity" "49").1.countP Event.isSend =
        1 :=
  notfound_creates_then_sends_once notFoundClient "humidity" "49" ⟨"humidity"⟩
    rfl rfl rfl

/-- Claim C9: whatever the loop did before exiting — by an interrupt or by
an unhandled exception — the `__main__` block runs cleanup exactly once,
after the loop and before the exit outcome propagates, and the outcome
(re-raised exception or interrupt) is unchanged. -/
theorem cleanup_once_and_error_reraised (runTrace : List MainEvent)
    (exit : RunExit) (h : MainEvent.cleanup ∉ runTrace) :
    mainBlock runTrace exit = (runTrace ++ [MainEvent.cleanup], exit)
    ∧ (mainBlock runTrace exit).1.count MainEvent.cleanup = 1 := by
  have he : mainBlock runTrace exit =
      (runTrace ++ [MainEvent.cleanup], exit) := by
    cases exit <;> rfl
  refine ⟨he, ?_⟩
  rw [he]
  simp [List.count_append]
  exact List.count_eq_zero.mpr h

/-- Witness for `cleanup_once_and_error_reraised` at a loop run that exits
with an unhandled exception. -/
theorem cleanup_once_and_error_reraised_witness :
    mainBlock [MainEvent.runLoop] (RunExit.exception "boom") =
      ([MainEvent.runLoop, MainEvent.cleanup], RunExit.exception "boom")
    ∧ (mainBlock [MainEvent.runLoop] (RunExit.exception "boom")).1.count
        MainEvent.cleanup = 1 :=
  cleanup_once_and_error_reraised [MainEvent.runLoop]
    (RunExit.exception "boom") (by decide)

/-- Claim C10: in a permitted upload cycle with no successful sample yet
(all three reading values `None`), no client call is made at all — every
channel value is falsy and skipped — yet `adafruit_last_upload` is still set
to the current time, so the next upload is gated for a further full
interval. -/
theorem no_reading_upload_sends_nothing_but_sets_timestamp
    (last : Option Nat) (i now now2 : Nat) (client : AioClient)
    (hperm : mayUpload last i now = true) :
    AdafruitUpload true last i now now2 (GetValueDict initState) client =
      ⟨[], none, some now2⟩
    ∧ ∀ t, t < now2 + i → mayUpload (some now2) i t = false := by
  constructor
  · simp [AdafruitUpload, hperm, GetValueDict, initState, uploadChannels,
      truthyStr]
  · intro t ht
    simp [mayUpload]
    omega

/-- Witness for `no_reading_upload_sends_nothing_but_sets_timestamp`: at
startup (`last = None`), a permitted cycle with empty readings makes no
client call, sets the timestamp to `3`, and the gate then blocks at time
`7 < 3 + 5`. -/
theorem no_reading_upload_sends_nothing_but_sets_timestamp_witness :
    AdafruitUpload true none 5 0 3 (GetValueDict initState) okClient =
      ⟨[], none, some 3⟩
    ∧ mayUpload (some 3) 5 7 = false :=
  ⟨(no_reading_upload_sends_nothing_but_sets_timestamp none 5 0 3 okClient
      (by decide)).1,
    (no_reading_upload_sends_nothing_but_sets_timestamp none 5 0 3 okClient
      (by decide)).2 7 (by decide)⟩

end AirMonitor
